import Mathlib

/-!
Shallow embedding of the excel-export-consumer service (Rust).

The embedding follows the source files:
  * `src/models.rs`            — `ExportStatus`, `ExportRequest` row, `ProductData`,
                                  `ExportNotification`, `ReportParams`
  * `src/services/db_store.rs` — `fetch_and_update_request_status`,
                                  `update_request_status`, `update_notification_sent_status`
  * `src/services/file_exporter.rs` — `export_to_excel`
  * `src/services/notifier.rs` — `send_notification`
  * `src/services/export_service.rs` — `process_export_request`
  * `src/kafka_consumer.rs`    — one iteration of the dispatch loop

External effects (JSON parsing, SQL queries, file I/O, the HTTP transport,
transaction success) are modelled by an oracle record `Env` holding the result
each external call would produce; the control flow around those results is
translated from the source.  Timestamps are abstract integers (`Utc::now()`
becomes `env.now`).  The stored database row for the request id is threaded
explicitly as a `StoredRow`.
-/

namespace ExcelExport

/-- `ExportStatus` from `src/models.rs`. -/
inductive ExportStatus where
  | Pending
  | Processing
  | Completed
  | Failed
deriving DecidableEq, Repr

/-- `ExportStatus::as_str` from `src/models.rs`. -/
def ExportStatus.as_str : ExportStatus → String
  | .Pending => "PENDING"
  | .Processing => "PROCESSING"
  | .Completed => "COMPLETED"
  | .Failed => "FAILED"

/-- One `products` row (`ProductData` in `src/models.rs`).  `price: f64` carries
no arithmetic in the pipeline (it is only copied into a sheet cell), so it is
modelled as an abstract `Int`. -/
structure ProductData where
  product_id : Int
  name : String
  category : String
  price : Int
  stock_quantity : Int
  created_at : Int
deriving DecidableEq, Repr

/-- `ReportParams` from `src/models.rs`; dates are abstract day numbers. -/
structure ReportParams where
  start_date : Int
  end_date : Int
  product_category : Option String
deriving DecidableEq, Repr

/-- The persisted `ExportRequests` row (`ExportRequest` in `src/models.rs`).
The id is kept as the canonical string form of the UUID; `request_payload` is
the opaque JSON document (its parse result lives in the oracle); `status` is a
`String` exactly as in the Rust struct, compared against `ExportStatus::as_str`
values. -/
structure StoredRow where
  id : String
  user_id : Int
  request_payload : String
  requested_at : Int
  status : String
  file_path : Option String
  completed_at : Option Int
  error_message : Option String
  notification_sent : Bool
deriving DecidableEq, Repr

/-- `anyhow::Context::context`: wrap an error with a context message, as the
`.context("...")?` calls do in the source. -/
def ctx (c e : String) : String := c ++ ": " ++ e

/-- `PostgresDbStore::fetch_and_update_request_status`
(`src/services/db_store.rs` lines 52–97): begin a transaction and lock and
read the row (`io` is the result of the transaction machinery: begin, the
SELECT, the UPDATE execution and the commit — any of their failures surfaces
as an error with the row left unchanged by rollback); if the stored status is
COMPLETED or FAILED, roll back and return the
"Request already processed and in final state" error, leaving the row
unchanged; otherwise set the status to `new_status` and commit, returning the
pre-transition snapshot together with the updated stored row.  The
row-not-found branch is not modelled: every claim concerns an existing row. -/
def fetch_and_update_request_status (io : Except String Unit) (row : StoredRow)
    (new_status : ExportStatus) : Except String (StoredRow × StoredRow) :=
  match io with
  | Except.error e => Except.error e
  | Except.ok _ =>
    if row.status = ExportStatus.Completed.as_str ∨ row.status = ExportStatus.Failed.as_str then
      Except.error "Request already processed and in final state"
    else
      Except.ok (row, { row with status := new_status.as_str })

/-- `PostgresDbStore::update_request_status`
(`src/services/db_store.rs` lines 100–133): one unconditional UPDATE setting
status, file_path, completed_at (always `Some(now)`) and error_message. -/
def update_request_status (row : StoredRow) (new_status : ExportStatus)
    (fp : Option String) (em : Option String) (now : Int) : StoredRow :=
  { row with
      status := new_status.as_str
      file_path := fp
      completed_at := some now
      error_message := em }

/-- `PostgresDbStore::update_notification_sent_status`
(`src/services/db_store.rs` lines 136–151): UPDATE of the single
`notification_sent` column. -/
def update_notification_sent_status (row : StoredRow) (sent : Bool) : StoredRow :=
  { row with notification_sent := sent }

/-- Header cells written by `export_to_excel` (`src/services/file_exporter.rs`
lines 46–51). -/
def excel_header : List String :=
  ["Product ID", "Name", "Category", "Price", "Stock Quantity", "Created At"]

/-- One data row of the sheet (`src/services/file_exporter.rs` lines 54–62). -/
def product_row (r : ProductData) : List String :=
  [toString r.product_id, r.name, r.category, toString r.price,
   toString r.stock_quantity, toString r.created_at]

/-- The full cell contents of the generated sheet: the header row followed by
one row per `ProductData` record. -/
def excel_rows (data : List ProductData) : List (List String) :=
  excel_header :: data.map product_row

/-- `LocalFileExporter::export_to_excel` (`src/services/file_exporter.rs`
lines 25–86): the output is named `{export_path}/{request_id}.xlsx` from the
correlation id alone; directory creation / workbook I/O may fail (`io`
oracle); on success the full path and the written sheet contents are
returned. -/
def export_to_excel (io : Except String Unit) (request_id : String)
    (data : List ProductData) (export_path : String) :
    Except String (String × List (List String)) :=
  match io with
  | Except.error e => Except.error e
  | Except.ok _ => Except.ok (export_path ++ "/" ++ request_id ++ ".xlsx", excel_rows data)

/-- Result of the single `reqwest` POST performed by the notifier: either a
transport-level failure or an HTTP response with a status code and body. -/
inductive HttpResult where
  | transportError (msg : String)
  | response (code : Nat) (body : String)
deriving DecidableEq, Repr

/-- `StatusCode::is_success` in `reqwest`: 200–299. -/
def is_success_code (c : Nat) : Bool := 200 ≤ c && c ≤ 299

/-- `ExportNotification` from `src/models.rs`. -/
structure ExportNotification where
  request_id : String
  status : String
  file_url : Option String
  error_message : Option String
deriving DecidableEq, Repr

/-- `HttpNotifier::send_notification` (`src/services/notifier.rs` lines 37–83):
performs exactly one POST of the notification; a transport failure or a
non-success response status is an error, a success status is `Ok`.  The
returned `Nat` counts the POST attempts made by this invocation. -/
def send_notification (transport : HttpResult) (_n : ExportNotification) :
    Except String Unit × Nat :=
  match transport with
  | HttpResult.transportError m =>
      (Except.error (ctx "Failed to send notification HTTP request" m), 1)
  | HttpResult.response code body =>
      if is_success_code code then (Except.ok (), 1)
      else (Except.error ("Notification service responded with error status " ++
              toString code ++ ": " ++ body), 1)

/-- `true` exactly when the notifier's single POST would succeed. -/
def sendOk (t : HttpResult) : Bool :=
  match t with
  | HttpResult.transportError _ => false
  | HttpResult.response code _ => is_success_code code

/-- `Path::new(p).file_name()` for the slash-separated paths the exporter
builds: the characters after the last `/`. -/
def file_name (p : String) : String :=
  String.mk ((p.data.reverse.takeWhile (fun c => c != '/')).reverse)

/-- The public URL built at `src/services/export_service.rs` lines 138–144:
`format!("{}/exports/{}", base, Path::new(&p).file_name()...)`. -/
def public_file_url (base p : String) : String :=
  base ++ "/exports/" ++ file_name p

/-- Oracle for every external effect one execution of
`process_export_request` can perform, in program order. -/
structure Env where
  /-- result of the fetch-and-transition transaction machinery -/
  fetchIO : Except String Unit
  /-- result of `serde_json::from_value::<ReportParams>(request_payload)` -/
  parse : Except String ReportParams
  /-- result of `query_product_data` -/
  query : Except String (List ProductData)
  /-- success of the exporter's directory-creation / workbook I/O -/
  genIO : Except String Unit
  /-- whether the `update_request_status` transaction commits -/
  finalizeOk : Bool
  /-- outcome of the notifier's POST -/
  send : HttpResult
  /-- whether the `update_notification_sent_status` UPDATE succeeds -/
  markNotifiedOk : Bool
  /-- `Utc::now()` at finalize time -/
  now : Int

/-- Service configuration fields of `ExportService`
(`src/services/export_service.rs` lines 26–27). -/
structure ServiceCfg where
  excel_export_path : String
  notification_service_base_url : String

/-- Everything one execution of `process_export_request` does: the stored row
it leaves behind, its return value, the in-flight gauge increments and
decrements it performed, whether the artifact generator ran, and the
arguments of the `finalize`, notification and `markNotified` calls it made. -/
structure Outcome where
  row : StoredRow
  result : Except String Unit
  gaugeInc : Nat
  gaugeDec : Nat
  artifactGenerated : Bool
  finalizeCall : Option (ExportStatus × Option String × Option String)
  notifyCall : Option ExportNotification
  markNotifiedCall : Option Bool
deriving Repr

/-- Steps 6–8 of `process_export_request`
(`src/services/export_service.rs` lines 137–170), entered after a successful
finalize: build the public URL from the (moved) `file_path` local, send the
notification; on send failure mark not-sent with the store error swallowed
(`.ok()`), on send success mark sent with `?` propagating a store error —
which also skips the gauge decrement at line 166. -/
def notifyPhase (cfg : ServiceCfg) (env : Env) (request_id : String)
    (row2 : StoredRow) (final_status : ExportStatus) (fp : Option String)
    (em : Option String) (artifact : Bool)
    (fcall : ExportStatus × Option String × Option String) : Outcome :=
  let url := fp.map (public_file_url cfg.notification_service_base_url)
  let n : ExportNotification :=
    { request_id := request_id
      status := final_status.as_str
      file_url := url
      error_message := em }
  match (send_notification env.send n).fst with
  | Except.error _ =>
      let row3 := if env.markNotifiedOk then update_notification_sent_status row2 false else row2
      { row := row3, result := Except.ok (), gaugeInc := 1, gaugeDec := 1,
        artifactGenerated := artifact, finalizeCall := some fcall,
        notifyCall := some n, markNotifiedCall := some false }
  | Except.ok _ =>
      if env.markNotifiedOk then
        { row := update_notification_sent_status row2 true, result := Except.ok (),
          gaugeInc := 1, gaugeDec := 1, artifactGenerated := artifact,
          finalizeCall := some fcall, notifyCall := some n,
          markNotifiedCall := some true }
      else
        { row := row2, result := Except.error "Failed to update notification_sent status",
          gaugeInc := 1, gaugeDec := 0, artifactGenerated := artifact,
          finalizeCall := some fcall, notifyCall := some n,
          markNotifiedCall := some true }

/-- Steps 4–8 of `process_export_request`
(`src/services/export_service.rs` lines 111–170): `pr` is the value of the
`processing_result` block (carrying the exported path on success), `row` the
stored row as the block left it, `artifact` whether the generator ran.  The
match mirrors lines 113–135: on `Ok`, finalize `(Completed, Some(path), None)`;
on `Err e`, finalize `(Failed, None, Some(format!("Error: {:?}", e)))`; either
`update_request_status(..).await?` failing returns the error at once, before
the gauge decrement. -/
def afterBlock (cfg : ServiceCfg) (env : Env) (request_id : String)
    (row : StoredRow) (pr : Except String String) (artifact : Bool) : Outcome :=
  match pr with
  | Except.ok path =>
      let fcall : ExportStatus × Option String × Option String :=
        (ExportStatus.Completed, some path, none)
      if env.finalizeOk then
        let row2 := update_request_status row ExportStatus.Completed (some path) none env.now
        notifyPhase cfg env request_id row2 ExportStatus.Completed (some path) none artifact fcall
      else
        { row := row, result := Except.error "Failed to commit final status update transaction",
          gaugeInc := 1, gaugeDec := 0, artifactGenerated := artifact,
          finalizeCall := some fcall, notifyCall := none, markNotifiedCall := none }
  | Except.error e =>
      let em := some ("Error: " ++ e)
      let fcall : ExportStatus × Option String × Option String :=
        (ExportStatus.Failed, none, em)
      if env.finalizeOk then
        let row2 := update_request_status row ExportStatus.Failed none em env.now
        notifyPhase cfg env request_id row2 ExportStatus.Failed none em artifact fcall
      else
        { row := row, result := Except.error "Failed to commit final status update transaction",
          gaugeInc := 1, gaugeDec := 0, artifactGenerated := artifact,
          finalizeCall := some fcall, notifyCall := none, markNotifiedCall := none }

/-- `ExportService::process_export_request`
(`src/services/export_service.rs` lines 59–171).  The in-flight gauge is
incremented on entry (line 65); the `processing_result` block (lines 73–109)
runs fetch-and-transition, payload parse, data query and Excel generation,
short-circuiting on the first error with its `.context(..)` message; the rest
is `afterBlock`.  Note the fetch error — including the AlreadyProcessed
rejection — lands in the generic `Err` arm of the match at line 113. -/
def process_export_request (cfg : ServiceCfg) (env : Env) (request_id : String)
    (row : StoredRow) : Outcome :=
  match fetch_and_update_request_status env.fetchIO row ExportStatus.Processing with
  | Except.error e =>
      afterBlock cfg env request_id row
        (Except.error (ctx "Failed to fetch or update request status to PROCESSING" e)) false
  | Except.ok (_, row1) =>
      match env.parse with
      | Except.error e =>
          afterBlock cfg env request_id row1
            (Except.error (ctx "Failed to parse request_payload JSON" e)) false
      | Except.ok _ =>
          match env.query with
          | Except.error e =>
              afterBlock cfg env request_id row1
                (Except.error (ctx "Failed to query product data" e)) false
          | Except.ok data =>
              match export_to_excel env.genIO request_id data cfg.excel_export_path with
              | Except.error e =>
                  afterBlock cfg env request_id row1
                    (Except.error (ctx "Failed to export data to Excel" e)) true
              | Except.ok (path, _) =>
                  afterBlock cfg env request_id row1 (Except.ok path) true

/-- Hex-digit test used by the UUID parser model. -/
def is_hex_digit (c : Char) : Bool :=
  c.isDigit || ('a' ≤ c && c ≤ 'f') || ('A' ≤ c && c ≤ 'F')

/-- Split a character list on `-`, keeping empty groups. -/
def splitOnDash : List Char → List (List Char)
  | [] => [[]]
  | c :: cs =>
      let r := splitOnDash cs
      if c = '-' then [] :: r
      else
        match r with
        | [] => [[c]]
        | g :: gs => (c :: g) :: gs

/-- Model of `Uuid::parse_str` on the queue's contract (`spec §6`: the payload
is the canonical string form of a correlation id): accepts the hyphenated
8-4-4-4-12 hex form, returning the id; anything else fails.  Other forms the
library would also accept (simple, urn, braced) are outside the queue's
payload contract and modelled as rejected. -/
def parse_uuid (s : String) : Option String :=
  match splitOnDash s.data with
  | [a, b, c, d, e] =>
      if a.length = 8 && b.length = 4 && c.length = 4 && d.length = 4 && e.length = 12
          && (a ++ b ++ c ++ d ++ e).all is_hex_digit then
        some s
      else
        none
  | _ => none

/-- One delivery observed by the dispatch loop (`src/kafka_consumer.rs`
lines 41–99): a receive error, or a message whose `payload_view::<str>()` is
`None` (no payload), `Some(Err _)` (not valid UTF-8 text), or `Some(Ok s)`. -/
inductive KafkaEvent where
  | recvError (msg : String)
  | msg (payload : Option (Except String String))
deriving Repr

/-- What one iteration of the dispatch loop does: whether the message position
was committed, which id (if any) a unit of work was spawned for and what that
work returned, how long the loop slept, and that the loop goes on to the next
iteration (no arm of the loop body breaks out or propagates an error). -/
structure DispatchEffect where
  committed : Bool
  spawnedId : Option String
  workResult : Option (Except String Unit)
  sleptSecs : Nat
  loopContinues : Bool
deriving Repr

/-- One iteration of the `loop` in `run_kafka_consumer`
(`src/kafka_consumer.rs` lines 41–100).  A receive error sleeps 5s and
continues; a missing / non-text / non-UUID payload logs and `continue`s
without committing; a valid id spawns the unit of work (`work id`) and, after
it returns — success or failure — commits the message position. -/
def dispatch_step (ev : KafkaEvent) (work : String → Except String Unit) :
    DispatchEffect :=
  match ev with
  | KafkaEvent.recvError _ =>
      { committed := false, spawnedId := none, workResult := none,
        sleptSecs := 5, loopContinues := true }
  | KafkaEvent.msg none =>
      { committed := false, spawnedId := none, workResult := none,
        sleptSecs := 0, loopContinues := true }
  | KafkaEvent.msg (some (Except.error _)) =>
      { committed := false, spawnedId := none, workResult := none,
        sleptSecs := 0, loopContinues := true }
  | KafkaEvent.msg (some (Except.ok s)) =>
      match parse_uuid s with
      | none =>
          { committed := false, spawnedId := none, workResult := none,
            sleptSecs := 0, loopContinues := true }
      | some id =>
          { committed := true, spawnedId := some id, workResult := some (work id),
            sleptSecs := 0, loopContinues := true }

/-! ### Concrete fixtures used by the closed theorems and witnesses -/

/-- The correlation id used by the spec's own worked example (§8). -/
def sampleRid : String := "3fa85f64-5717-4562-b3fc-2c963f66afa6"

def sampleCfg : ServiceCfg :=
  { excel_export_path := "/data/exports"
    notification_service_base_url := "http://notify.local" }

def sampleParams : ReportParams :=
  { start_date := 0, end_date := 30, product_category := none }

/-- A stored row still in PENDING, as the external producer creates it. -/
def pendingRow : StoredRow :=
  { id := sampleRid, user_id := 7, request_payload := "opaque-json-document",
    requested_at := 50, status := "PENDING", file_path := none,
    completed_at := none, error_message := none, notification_sent := false }

/-- A stored row already finalized as COMPLETED, with its artifact recorded. -/
def completedRow : StoredRow :=
  { pendingRow with
      status := "COMPLETED"
      file_path := some ("/data/exports/" ++ sampleRid ++ ".xlsx")
      completed_at := some 100
      notification_sent := true }

/-- A stored row currently held in PROCESSING by another worker. -/
def processingRow : StoredRow := { pendingRow with status := "PROCESSING" }

/-- An oracle where every external effect succeeds. -/
def okEnv : Env :=
  { fetchIO := Except.ok (), parse := Except.ok sampleParams,
    query := Except.ok [], genIO := Except.ok (), finalizeOk := true,
    send := HttpResult.response 200 "", markNotifiedOk := true, now := 200 }

/-- Every effect succeeds, except the notification-sent-flag UPDATE. -/
def envC5 : Env := { okEnv with markNotifiedOk := false }

/-- The send fails with HTTP 500 and the flag UPDATE also fails. -/
def envC5w : Env :=
  { okEnv with send := HttpResult.response 500 "oops", markNotifiedOk := false }

/-- Every effect succeeds, except the finalize transaction. -/
def envC9 : Env := { okEnv with finalizeOk := false }

/-! ### Helper lemmas -/

theorem err_text_ne_empty (e : String) : ("Error: " ++ e) ≠ "" := by
  intro h
  have h2 : ("Error: " ++ e).length = ("" : String).length := congrArg String.length h
  rw [String.length_append] at h2
  have h3 : ("Error: " : String).length = 7 := rfl
  rw [h3, String.length_empty] at h2
  omega

theorem notifyPhase_row (cfg : ServiceCfg) (env : Env) (rid : String)
    (row2 : StoredRow) (st : ExportStatus) (fp em : Option String) (a : Bool)
    (fc : ExportStatus × Option String × Option String) :
    (notifyPhase cfg env rid row2 st fp em a fc).row =
      { row2 with notification_sent :=
          if env.markNotifiedOk then sendOk env.send else row2.notification_sent } := by
  unfold notifyPhase
  cases hs : env.send with
  | transportError m =>
      cases hm : env.markNotifiedOk <;>
        simp [send_notification, sendOk, update_notification_sent_status, hm]
  | response code body =>
      cases hc : is_success_code code <;> cases hm : env.markNotifiedOk <;>
        simp [send_notification, sendOk, update_notification_sent_status, hm, hc]

theorem notifyPhase_finalizeCall (cfg : ServiceCfg) (env : Env) (rid : String)
    (row2 : StoredRow) (st : ExportStatus) (fp em : Option String) (a : Bool)
    (fc : ExportStatus × Option String × Option String) :
    (notifyPhase cfg env rid row2 st fp em a fc).finalizeCall = some fc := by
  unfold notifyPhase
  cases hs : env.send with
  | transportError m =>
      cases hm : env.markNotifiedOk <;> simp [send_notification, hm]
  | response code body =>
      cases hc : is_success_code code <;> cases hm : env.markNotifiedOk <;>
        simp [send_notification, hm, hc]

theorem notifyPhase_result (cfg : ServiceCfg) (env : Env) (rid : String)
    (row2 : StoredRow) (st : ExportStatus) (fp em : Option String) (a : Bool)
    (fc : ExportStatus × Option String × Option String) :
    (notifyPhase cfg env rid row2 st fp em a fc).result =
      (if sendOk env.send && !env.markNotifiedOk then
        Except.error "Failed to update notification_sent status"
      else Except.ok ()) := by
  unfold notifyPhase
  cases hs : env.send with
  | transportError m =>
      cases hm : env.markNotifiedOk <;> simp [send_notification, sendOk, hm]
  | response code body =>
      cases hc : is_success_code code <;> cases hm : env.markNotifiedOk <;>
        simp [send_notification, sendOk, hm, hc]

theorem notifyPhase_artifact (cfg : ServiceCfg) (env : Env) (rid : String)
    (row2 : StoredRow) (st : ExportStatus) (fp em : Option String) (a : Bool)
    (fc : ExportStatus × Option String × Option String) :
    (notifyPhase cfg env rid row2 st fp em a fc).artifactGenerated = a := by
  unfold notifyPhase
  cases hs : env.send with
  | transportError m =>
      cases hm : env.markNotifiedOk <;> simp [send_notification, hm]
  | response code body =>
      cases hc : is_success_code code <;> cases hm : env.markNotifiedOk <;>
        simp [send_notification, hm, hc]

theorem afterBlock_finalizeCall (cfg : ServiceCfg) (env : Env) (rid : String)
    (row : StoredRow) (pr : Except String String) (a : Bool) :
    (afterBlock cfg env rid row pr a).finalizeCall =
      some (match pr with
            | Except.ok path => (ExportStatus.Completed, some path, none)
            | Except.error e => (ExportStatus.Failed, none, some ("Error: " ++ e))) := by
  cases pr <;> cases hf : env.finalizeOk <;>
    simp [afterBlock, hf, notifyPhase_finalizeCall]

theorem afterBlock_artifact (cfg : ServiceCfg) (env : Env) (rid : String)
    (row : StoredRow) (pr : Except String String) (a : Bool) :
    (afterBlock cfg env rid row pr a).artifactGenerated = a := by
  cases pr <;> cases hf : env.finalizeOk <;>
    simp [afterBlock, hf, notifyPhase_artifact]

theorem afterBlock_row_of_finalizeOk (cfg : ServiceCfg) (env : Env) (rid : String)
    (row : StoredRow) (pr : Except String String) (a : Bool)
    (hf : env.finalizeOk = true) :
    (afterBlock cfg env rid row pr a).row =
      { update_request_status row
          (match pr with | Except.ok _ => ExportStatus.Completed | Except.error _ => ExportStatus.Failed)
          (match pr with | Except.ok path => some path | Except.error _ => none)
          (match pr with | Except.ok _ => none | Except.error e => some ("Error: " ++ e))
          env.now with
        notification_sent :=
          if env.markNotifiedOk then sendOk env.send else row.notification_sent } := by
  cases pr <;> simp [afterBlock, hf, notifyPhase_row, update_request_status]

theorem afterBlock_result_of_finalizeOk (cfg : ServiceCfg) (env : Env) (rid : String)
    (row : StoredRow) (pr : Except String String) (a : Bool)
    (hf : env.finalizeOk = true) :
    (afterBlock cfg env rid row pr a).result =
      (if sendOk env.send && !env.markNotifiedOk then
        Except.error "Failed to update notification_sent status"
      else Except.ok ()) := by
  cases pr <;> simp [afterBlock, hf, notifyPhase_result]

theorem process_eq_afterBlock (cfg : ServiceCfg) (env : Env) (rid : String)
    (row : StoredRow) :
    ∃ row1 pr a, process_export_request cfg env rid row = afterBlock cfg env rid row1 pr a ∧
      row1.notification_sent = row.notification_sent := by
  unfold process_export_request fetch_and_update_request_status
  cases hio : env.fetchIO with
  | error e => exact ⟨row, _, _, rfl, rfl⟩
  | ok u =>
    by_cases hterm : row.status = ExportStatus.Completed.as_str ∨
        row.status = ExportStatus.Failed.as_str
    · simp only [if_pos hterm]
      exact ⟨row, _, _, rfl, rfl⟩
    · simp only [if_neg hterm]
      cases hp : env.parse with
      | error e => exact ⟨_, _, _, rfl, rfl⟩
      | ok p =>
        cases hq : env.query with
        | error e => exact ⟨_, _, _, rfl, rfl⟩
        | ok d =>
          cases hg : env.genIO with
          | error e => exact ⟨_, _, _, rfl, rfl⟩
          | ok u2 => exact ⟨_, _, _, rfl, rfl⟩

theorem takeWhile_append_all (p : Char → Bool) (l₁ : List Char) (a : Char)
    (l₂ : List Char) (h₁ : ∀ x ∈ l₁, p x = true) (ha : p a = false) :
    (l₁ ++ a :: l₂).takeWhile p = l₁ := by
  induction l₁ with
  | nil => simp [List.takeWhile_cons, ha]
  | cons x xs ih =>
      have hx : p x = true := h₁ x (List.mem_cons_self x xs)
      simp [List.takeWhile_cons, hx,
        ih (fun y hy => h₁ y (List.mem_cons_of_mem x hy))]

theorem file_name_of_append (pre f : String) (h : ∀ c ∈ f.data, (c != '/') = true) :
    file_name (pre ++ "/" ++ f) = f := by
  have hd : (pre ++ "/" ++ f).data = pre.data ++ '/' :: f.data := by
    rw [String.data_append, String.data_append]
    show (pre.data ++ ['/']) ++ f.data = _
    simp
  have hrev : (pre.data ++ '/' :: f.data).reverse =
      f.data.reverse ++ '/' :: pre.data.reverse := by
    rw [List.reverse_append, List.reverse_cons]
    simp [List.append_assoc]
  have htw : (f.data.reverse ++ '/' :: pre.data.reverse).takeWhile
      (fun c => c != '/') = f.data.reverse :=
    takeWhile_append_all _ _ _ _ (fun x hx => h x (List.mem_reverse.mp hx)) (by decide)
  unfold file_name
  rw [hd, hrev, htw, List.reverse_reverse]

theorem process_of_all_ok (cfg : ServiceCfg) (env : Env) (rid : String)
    (row : StoredRow) (p : ReportParams) (d : List ProductData)
    (hio : env.fetchIO = Except.ok ())
    (hterm : ¬(row.status = ExportStatus.Completed.as_str ∨
        row.status = ExportStatus.Failed.as_str))
    (hp : env.parse = Except.ok p) (hq : env.query = Except.ok d)
    (hg : env.genIO = Except.ok ()) :
    process_export_request cfg env rid row =
      afterBlock cfg env rid { row with status := ExportStatus.Processing.as_str }
        (Except.ok (cfg.excel_export_path ++ "/" ++ rid ++ ".xlsx")) true := by
  unfold process_export_request fetch_and_update_request_status
  rw [hio, hp, hq, hg]
  simp [hterm, export_to_excel]

theorem process_of_parse_error (cfg : ServiceCfg) (env : Env) (rid : String)
    (row : StoredRow) (e : String)
    (hio : env.fetchIO = Except.ok ())
    (hterm : ¬(row.status = ExportStatus.Completed.as_str ∨
        row.status = ExportStatus.Failed.as_str))
    (hp : env.parse = Except.error e) :
    process_export_request cfg env rid row =
      afterBlock cfg env rid { row with status := ExportStatus.Processing.as_str }
        (Except.error (ctx "Failed to parse request_payload JSON" e)) false := by
  unfold process_export_request fetch_and_update_request_status
  rw [hio, hp]
  simp [hterm]

theorem process_of_query_error (cfg : ServiceCfg) (env : Env) (rid : String)
    (row : StoredRow) (p : ReportParams) (e : String)
    (hio : env.fetchIO = Except.ok ())
    (hterm : ¬(row.status = ExportStatus.Completed.as_str ∨
        row.status = ExportStatus.Failed.as_str))
    (hp : env.parse = Except.ok p) (hq : env.query = Except.error e) :
    process_export_request cfg env rid row =
      afterBlock cfg env rid { row with status := ExportStatus.Processing.as_str }
        (Except.error (ctx "Failed to query product data" e)) false := by
  unfold process_export_request fetch_and_update_request_status
  rw [hio, hp, hq]
  simp [hterm]

theorem process_of_gen_error (cfg : ServiceCfg) (env : Env) (rid : String)
    (row : StoredRow) (p : ReportParams) (d : List ProductData) (e : String)
    (hio : env.fetchIO = Except.ok ())
    (hterm : ¬(row.status = ExportStatus.Completed.as_str ∨
        row.status = ExportStatus.Failed.as_str))
    (hp : env.parse = Except.ok p) (hq : env.query = Except.ok d)
    (hg : env.genIO = Except.error e) :
    process_export_request cfg env rid row =
      afterBlock cfg env rid { row with status := ExportStatus.Processing.as_str }
        (Except.error (ctx "Failed to export data to Excel" e)) true := by
  unfold process_export_request fetch_and_update_request_status
  rw [hio, hp, hq, hg]
  simp [hterm, export_to_excel]

/-! ### Claim theorems -/

/-- C1: the claim says a duplicate delivery onto a terminal (COMPLETED) row
reports AlreadyProcessed and returns cleanly with no further action and no
mutation of the stored row.  Evaluating the code at such a row shows the
opposite: the AlreadyProcessed rejection falls into the generic error arm of
`process_export_request`, which finalizes the row again as FAILED — clearing
its file_path, resetting completed_at, writing an error_message — and still
returns `Ok`.  This contradicts the store's own guard (which rolls back
precisely to skip processing) and the terminal-state invariant, so the code,
not the claim, is wrong. -/
theorem C1_already_processed_overwrites_terminal_row :
    (process_export_request sampleCfg okEnv sampleRid completedRow).result = Except.ok () ∧
    (process_export_request sampleCfg okEnv sampleRid completedRow).row.status =
      ExportStatus.Failed.as_str ∧
    (process_export_request sampleCfg okEnv sampleRid completedRow).row.file_path = none ∧
    (process_export_request sampleCfg okEnv sampleRid completedRow).row ≠ completedRow ∧
    (process_export_request sampleCfg okEnv sampleRid completedRow).finalizeCall =
      some (ExportStatus.Failed, none,
        some "Error: Failed to fetch or update request status to PROCESSING: Request already processed and in final state") := by
  refine ⟨rfl, rfl, rfl, by decide, rfl⟩

/-- C2 counterexample: the claim says a row already in PROCESSING is rejected
by `fetch_and_update_request_status` exactly like a terminal row.  In the
code the guard tests only COMPLETED and FAILED, so a PROCESSING row is
accepted: the acquisition returns `Ok` with the snapshot, and a full pipeline
run proceeds (artifact generated, finalize called with Completed). -/
theorem C2_processing_row_is_reacquired :
    fetch_and_update_request_status (Except.ok ()) processingRow ExportStatus.Processing =
      Except.ok (processingRow, processingRow) ∧
    (process_export_request sampleCfg okEnv sampleRid processingRow).artifactGenerated = true ∧
    (process_export_request sampleCfg okEnv sampleRid processingRow).finalizeCall =
      some (ExportStatus.Completed,
        some ("/data/exports/" ++ sampleRid ++ ".xlsx"), none) := by
  refine ⟨rfl, rfl, rfl⟩

/-- C2 (amended): `fetch_and_update_request_status` rejects an acquisition if
and only if the stored status is terminal (COMPLETED or FAILED); a row whose
status is PROCESSING — or any other non-terminal value — is re-acquired, so a
redelivery while the first worker is still processing re-enters the pipeline
(as §5 of the spec itself describes). -/
theorem C2_guard_rejects_exactly_terminal (row : StoredRow) (st : ExportStatus) :
    (∃ out, fetch_and_update_request_status (Except.ok ()) row st = Except.ok out) ↔
      ¬(row.status = ExportStatus.Completed.as_str ∨
        row.status = ExportStatus.Failed.as_str) := by
  unfold fetch_and_update_request_status
  by_cases h : row.status = ExportStatus.Completed.as_str ∨
      row.status = ExportStatus.Failed.as_str
  · simp [h]
  · simp [h]

/-- C3: once the notification step is reached after a successful finalize, the
stored row keeps exactly the status, file_path, completed_at and
error_message the finalize wrote; the only field the step may change is
notification_sent — set to true when the send succeeded, false when it
failed (when the flag UPDATE itself fails, the stored flag is simply left
as it was). -/
theorem C3_notification_never_changes_finalized_row
    (cfg : ServiceCfg) (env : Env) (rid : String) (row : StoredRow)
    (hfin : env.finalizeOk = true) :
    ∃ st fp em,
      (process_export_request cfg env rid row).finalizeCall = some (st, fp, em) ∧
      (process_export_request cfg env rid row).row.status = st.as_str ∧
      (process_export_request cfg env rid row).row.file_path = fp ∧
      (process_export_request cfg env rid row).row.completed_at = some env.now ∧
      (process_export_request cfg env rid row).row.error_message = em ∧
      (env.markNotifiedOk = true →
        (process_export_request cfg env rid row).row.notification_sent = sendOk env.send) ∧
      (env.markNotifiedOk = false →
        (process_export_request cfg env rid row).row.notification_sent =
          row.notification_sent) := by
  obtain ⟨row1, pr, a, hpe, hns⟩ := process_eq_afterBlock cfg env rid row
  rw [hpe]
  have hrow := afterBlock_row_of_finalizeOk cfg env rid row1 pr a hfin
  have hfc := afterBlock_finalizeCall cfg env rid row1 pr a
  cases pr with
  | ok path =>
    refine ⟨ExportStatus.Completed, some path, none, ?_, ?_, ?_, ?_, ?_, ?_, ?_⟩
    · rw [hfc]
    · rw [hrow]; rfl
    · rw [hrow]; rfl
    · rw [hrow]; rfl
    · rw [hrow]; rfl
    · intro hm; rw [hrow]; simp [update_request_status, hm]
    · intro hm; rw [hrow]; simp [update_request_status, hm, hns]
  | error e =>
    refine ⟨ExportStatus.Failed, none, some ("Error: " ++ e), ?_, ?_, ?_, ?_, ?_, ?_, ?_⟩
    · rw [hfc]
    · rw [hrow]; rfl
    · rw [hrow]; rfl
    · rw [hrow]; rfl
    · rw [hrow]; rfl
    · intro hm; rw [hrow]; simp [update_request_status, hm]
    · intro hm; rw [hrow]; simp [update_request_status, hm, hns]

/-- C3 witness: the theorem applied to the all-successful run on a PENDING
row. -/
theorem C3_witness :
    okEnv.finalizeOk = true ∧
    (∃ st fp em,
      (process_export_request sampleCfg okEnv sampleRid pendingRow).finalizeCall =
        some (st, fp, em) ∧
      (process_export_request sampleCfg okEnv sampleRid pendingRow).row.status = st.as_str ∧
      (process_export_request sampleCfg okEnv sampleRid pendingRow).row.file_path = fp ∧
      (process_export_request sampleCfg okEnv sampleRid pendingRow).row.completed_at =
        some okEnv.now ∧
      (process_export_request sampleCfg okEnv sampleRid pendingRow).row.error_message = em ∧
      (okEnv.markNotifiedOk = true →
        (process_export_request sampleCfg okEnv sampleRid pendingRow).row.notification_sent =
          sendOk okEnv.send) ∧
      (okEnv.markNotifiedOk = false →
        (process_export_request sampleCfg okEnv sampleRid pendingRow).row.notification_sent =
          pendingRow.notification_sent)) :=
  ⟨rfl, C3_notification_never_changes_finalized_row sampleCfg okEnv sampleRid pendingRow rfl⟩

/-- C5 counterexample: the claim says a failure of the notification-sent-flag
update is never fatal when finalize succeeded.  With the send succeeding
(HTTP 200) and the flag UPDATE failing, `process_export_request` returns the
flag update's error: the `?` at the send-success call propagates it. -/
theorem C5_marknotified_failure_propagates :
    envC5.finalizeOk = true ∧ sendOk envC5.send = true ∧
    (process_export_request sampleCfg envC5 sampleRid pendingRow).finalizeCall =
      some (ExportStatus.Completed, some ("/data/exports/" ++ sampleRid ++ ".xlsx"), none) ∧
    (process_export_request sampleCfg envC5 sampleRid pendingRow).result =
      Except.error "Failed to update notification_sent status" := by
  refine ⟨rfl, rfl, rfl, rfl⟩

/-- C5 (amended): the flag update's failure is swallowed only on the
send-failure path (`.ok()`); on the send-success path it is propagated as the
unit of work's error.  Given a successful finalize: if the send fails the
call returns `Ok` whatever the flag update does, and if the send succeeds but
the flag update fails the call returns that error. -/
theorem C5_swallow_only_on_send_failure
    (cfg : ServiceCfg) (env : Env) (rid : String) (row : StoredRow)
    (hfin : env.finalizeOk = true) :
    (sendOk env.send = false →
      (process_export_request cfg env rid row).result = Except.ok ()) ∧
    (sendOk env.send = true → env.markNotifiedOk = false →
      (process_export_request cfg env rid row).result =
        Except.error "Failed to update notification_sent status") := by
  obtain ⟨row1, pr, a, hpe, _⟩ := process_eq_afterBlock cfg env rid row
  rw [hpe, afterBlock_result_of_finalizeOk cfg env rid row1 pr a hfin]
  constructor
  · intro hs; simp [hs]
  · intro hs hm; simp [hs, hm]

/-- C5 witness: the amended theorem applied to a run whose send fails with
HTTP 500 and whose flag update also fails. -/
theorem C5_witness :
    envC5w.finalizeOk = true ∧
    ((sendOk envC5w.send = false →
        (process_export_request sampleCfg envC5w sampleRid pendingRow).result =
          Except.ok ()) ∧
     (sendOk envC5w.send = true → envC5w.markNotifiedOk = false →
        (process_export_request sampleCfg envC5w sampleRid pendingRow).result =
          Except.error "Failed to update notification_sent status")) :=
  ⟨rfl, C5_swallow_only_on_send_failure sampleCfg envC5w sampleRid pendingRow rfl⟩

/-- C9: the claim says the in-flight gauge is decremented exactly once on
every path.  Evaluating the code on a run whose finalize transaction fails
shows the increment happened but the decrement did not: the `?` after
`update_request_status` returns before the decrement at the end of the
function, contradicting the code's own comment that the block structure
makes the gauge decrement happen reliably. -/
theorem C9_gauge_leaks_when_finalize_fails :
    (process_export_request sampleCfg envC9 sampleRid pendingRow).gaugeInc = 1 ∧
    (process_export_request sampleCfg envC9 sampleRid pendingRow).gaugeDec = 0 ∧
    (process_export_request sampleCfg envC9 sampleRid pendingRow).result =
      Except.error "Failed to commit final status update transaction" := by
  refine ⟨rfl, rfl, rfl⟩

/-- C4: once the acquisition step has succeeded, the finalize arguments are
determined by the parse / query / generation results: all three succeeding
gives `(Completed, Some({export_path}/{id}.xlsx), None)`, any failure gives
`(Failed, None, Some(non-empty error text))`; and `update_request_status`
always writes the completion timestamp. -/
theorem C4_finalize_outcome_determined
    (cfg : ServiceCfg) (env : Env) (rid : String) (row : StoredRow)
    (hio : env.fetchIO = Except.ok ())
    (hterm : ¬(row.status = ExportStatus.Completed.as_str ∨
        row.status = ExportStatus.Failed.as_str)) :
    (∀ p d, env.parse = Except.ok p → env.query = Except.ok d →
      env.genIO = Except.ok () →
      (process_export_request cfg env rid row).finalizeCall =
        some (ExportStatus.Completed,
          some (cfg.excel_export_path ++ "/" ++ rid ++ ".xlsx"), none)) ∧
    (¬(env.parse.isOk = true ∧ env.query.isOk = true ∧ env.genIO.isOk = true) →
      ∃ emsg, (process_export_request cfg env rid row).finalizeCall =
          some (ExportStatus.Failed, none, some emsg) ∧ emsg ≠ "") ∧
    (∀ (r : StoredRow) (st : ExportStatus) (fp em : Option String) (now : Int),
      (update_request_status r st fp em now).completed_at = some now) := by
  refine ⟨?_, ?_, fun r st fp em now => rfl⟩
  · intro p d hp hq hg
    rw [process_of_all_ok cfg env rid row p d hio hterm hp hq hg,
      afterBlock_finalizeCall]
  · intro hbad
    cases hp : env.parse with
    | error e =>
        refine ⟨"Error: " ++ ctx "Failed to parse request_payload JSON" e, ?_,
          err_text_ne_empty _⟩
        rw [process_of_parse_error cfg env rid row e hio hterm hp,
          afterBlock_finalizeCall]
    | ok p =>
      cases hq : env.query with
      | error e =>
          refine ⟨"Error: " ++ ctx "Failed to query product data" e, ?_,
            err_text_ne_empty _⟩
          rw [process_of_query_error cfg env rid row p e hio hterm hp hq,
            afterBlock_finalizeCall]
      | ok d =>
        cases hg : env.genIO with
        | error e =>
            refine ⟨"Error: " ++ ctx "Failed to export data to Excel" e, ?_,
              err_text_ne_empty _⟩
            rw [process_of_gen_error cfg env rid row p d e hio hterm hp hq hg,
              afterBlock_finalizeCall]
        | ok u =>
            exact absurd ⟨by rw [hp]; rfl, by rw [hq]; rfl, by rw [hg]; rfl⟩ hbad

/-- C4 witness: the theorem applied to the all-successful run on a PENDING
row. -/
theorem C4_witness :
    okEnv.fetchIO = Except.ok () ∧
    ¬(pendingRow.status = ExportStatus.Completed.as_str ∨
      pendingRow.status = ExportStatus.Failed.as_str) ∧
    ((∀ p d, okEnv.parse = Except.ok p → okEnv.query = Except.ok d →
        okEnv.genIO = Except.ok () →
        (process_export_request sampleCfg okEnv sampleRid pendingRow).finalizeCall =
          some (ExportStatus.Completed,
            some (sampleCfg.excel_export_path ++ "/" ++ sampleRid ++ ".xlsx"), none)) ∧
     (¬(okEnv.parse.isOk = true ∧ okEnv.query.isOk = true ∧ okEnv.genIO.isOk = true) →
        ∃ emsg, (process_export_request sampleCfg okEnv sampleRid pendingRow).finalizeCall =
            some (ExportStatus.Failed, none, some emsg) ∧ emsg ≠ "") ∧
     (∀ (r : StoredRow) (st : ExportStatus) (fp em : Option String) (now : Int),
        (update_request_status r st fp em now).completed_at = some now)) :=
  ⟨rfl, by decide,
   C4_finalize_outcome_determined sampleCfg okEnv sampleRid pendingRow rfl (by decide)⟩

/-- C6: a payload that is absent, not valid text, or unparseable as a UUID is
skipped — the loop continues, nothing is spawned, and the message position is
NOT committed (the poison-message defect); for a valid id the position is
committed after the unit of work returns, whether it returned success or
failure.  `dispatch_step` is a total function: no arm breaks the loop. -/
theorem C6_dispatch_skip_and_commit (work : String → Except String Unit) :
    ((dispatch_step (KafkaEvent.msg none) work).committed = false ∧
     (dispatch_step (KafkaEvent.msg none) work).spawnedId = none ∧
     (dispatch_step (KafkaEvent.msg none) work).loopContinues = true) ∧
    (∀ e, (dispatch_step (KafkaEvent.msg (some (Except.error e))) work).committed = false ∧
          (dispatch_step (KafkaEvent.msg (some (Except.error e))) work).spawnedId = none ∧
          (dispatch_step (KafkaEvent.msg (some (Except.error e))) work).loopContinues = true) ∧
    (∀ s, parse_uuid s = none →
          (dispatch_step (KafkaEvent.msg (some (Except.ok s))) work).committed = false ∧
          (dispatch_step (KafkaEvent.msg (some (Except.ok s))) work).spawnedId = none ∧
          (dispatch_step (KafkaEvent.msg (some (Except.ok s))) work).loopContinues = true) ∧
    (∀ s id, parse_uuid s = some id →
          (dispatch_step (KafkaEvent.msg (some (Except.ok s))) work).committed = true ∧
          (dispatch_step (KafkaEvent.msg (some (Except.ok s))) work).workResult =
            some (work id) ∧
          (dispatch_step (KafkaEvent.msg (some (Except.ok s))) work).loopContinues = true) := by
  refine ⟨⟨rfl, rfl, rfl⟩, fun e => ⟨rfl, rfl, rfl⟩, fun s h => ?_, fun s id h => ?_⟩ <;>
    simp [dispatch_step, h]

/-- C6 witness: the theorem applied to a malformed payload and to the spec's
sample id, with a unit of work that fails. -/
theorem C6_witness :
    parse_uuid "not-a-uuid" = none ∧ parse_uuid sampleRid = some sampleRid ∧
    (dispatch_step (KafkaEvent.msg (some (Except.ok "not-a-uuid")))
      (fun _ => Except.error "boom")).committed = false ∧
    (dispatch_step (KafkaEvent.msg (some (Except.ok sampleRid)))
      (fun _ => Except.error "boom")).committed = true :=
  ⟨by decide, by decide,
   ((C6_dispatch_skip_and_commit (fun _ => Except.error "boom")).2.2.1
      "not-a-uuid" (by decide)).1,
   ((C6_dispatch_skip_and_commit (fun _ => Except.error "boom")).2.2.2
      sampleRid sampleRid (by decide)).1⟩

/-- C7: the generator names the artifact `{export_directory}/{request_id}.xlsx`
deterministically — the same id and directory give the same path whatever the
row set — and the public reference built from a produced path is
`{notification_base_url}/exports/{filename}` where the filename is
`{request_id}.xlsx`. -/
theorem C7_deterministic_naming_and_public_url
    (rid dir base : String) (data data' : List ProductData)
    (h : ∀ c ∈ rid.data, (c != '/') = true) :
    export_to_excel (Except.ok ()) rid data dir =
      Except.ok (dir ++ "/" ++ rid ++ ".xlsx", excel_rows data) ∧
    (∃ path rows rows',
      export_to_excel (Except.ok ()) rid data dir = Except.ok (path, rows) ∧
      export_to_excel (Except.ok ()) rid data' dir = Except.ok (path, rows')) ∧
    public_file_url base (dir ++ "/" ++ rid ++ ".xlsx") =
      base ++ "/exports/" ++ (rid ++ ".xlsx") := by
  refine ⟨rfl,
    ⟨dir ++ "/" ++ rid ++ ".xlsx", excel_rows data, excel_rows data', rfl, rfl⟩, ?_⟩
  have hx : dir ++ "/" ++ rid ++ ".xlsx" = dir ++ "/" ++ (rid ++ ".xlsx") := by
    apply String.ext
    simp [String.data_append, List.append_assoc]
  have hall : ∀ c ∈ (rid ++ ".xlsx").data, (c != '/') = true := by
    intro c hc
    rw [String.data_append] at hc
    rcases List.mem_append.mp hc with h1 | h2
    · exact h c h1
    · revert h2
      have : ∀ c ∈ (".xlsx" : String).data, (c != '/') = true := by decide
      exact this c
  unfold public_file_url
  rw [hx, file_name_of_append dir (rid ++ ".xlsx") hall]

/-- C7 witness: the theorem applied to the spec's sample id and the fixture
directory and base URL. -/
theorem C7_witness :
    (∀ c ∈ sampleRid.data, (c != '/') = true) ∧
    public_file_url "http://notify.local"
        ("/data/exports" ++ "/" ++ sampleRid ++ ".xlsx") =
      "http://notify.local" ++ "/exports/" ++ (sampleRid ++ ".xlsx") :=
  ⟨by decide,
   (C7_deterministic_naming_and_public_url sampleRid "/data/exports"
      "http://notify.local" [] [] (by decide)).2.2⟩

/-- C8: the notifier makes exactly one POST per invocation (no internal
retry), and it returns success if and only if the transport delivered a
response with a 2xx status — a transport failure or non-success status is an
error returned to the caller. -/
theorem C8_notifier_single_post_error_iff (t : HttpResult) (n : ExportNotification) :
    (send_notification t n).snd = 1 ∧
    ((send_notification t n).fst = Except.ok () ↔
      ∃ code body, t = HttpResult.response code body ∧ is_success_code code = true) := by
  cases t with
  | transportError m => simp [send_notification]
  | response code body =>
      cases hc : is_success_code code <;> simp [send_notification, hc]

/-- C10: with acquisition, parse and generation succeeding and the data query
returning zero rows, the pipeline still finalizes Completed with the artifact
path and no error, after generating a sheet holding only the header row. -/
theorem C10_empty_result_set_completes
    (cfg : ServiceCfg) (env : Env) (rid : String) (row : StoredRow) (p : ReportParams)
    (hio : env.fetchIO = Except.ok ())
    (hterm : ¬(row.status = ExportStatus.Completed.as_str ∨
        row.status = ExportStatus.Failed.as_str))
    (hp : env.parse = Except.ok p)
    (hq : env.query = Except.ok [])
    (hg : env.genIO = Except.ok ()) :
    (process_export_request cfg env rid row).finalizeCall =
      some (ExportStatus.Completed,
        some (cfg.excel_export_path ++ "/" ++ rid ++ ".xlsx"), none) ∧
    (process_export_request cfg env rid row).artifactGenerated = true ∧
    export_to_excel (Except.ok ()) rid [] cfg.excel_export_path =
      Except.ok (cfg.excel_export_path ++ "/" ++ rid ++ ".xlsx", [excel_header]) := by
  rw [process_of_all_ok cfg env rid row p [] hio hterm hp hq hg]
  exact ⟨by rw [afterBlock_finalizeCall], by rw [afterBlock_artifact], rfl⟩

/-- C10 witness: the theorem applied to the all-successful run whose query
returns the empty list. -/
theorem C10_witness :
    okEnv.fetchIO = Except.ok () ∧
    ¬(pendingRow.status = ExportStatus.Completed.as_str ∨
      pendingRow.status = ExportStatus.Failed.as_str) ∧
    okEnv.parse = Except.ok sampleParams ∧
    okEnv.query = Except.ok [] ∧
    okEnv.genIO = Except.ok () ∧
    ((process_export_request sampleCfg okEnv sampleRid pendingRow).finalizeCall =
      some (ExportStatus.Completed,
        some (sampleCfg.excel_export_path ++ "/" ++ sampleRid ++ ".xlsx"), none) ∧
    (process_export_request sampleCfg okEnv sampleRid pendingRow).artifactGenerated = true ∧
    export_to_excel (Except.ok ()) sampleRid [] sampleCfg.excel_export_path =
      Except.ok (sampleCfg.excel_export_path ++ "/" ++ sampleRid ++ ".xlsx",
        [excel_header])) :=
  ⟨rfl, by decide, rfl, rfl, rfl,
   C10_empty_result_set_completes sampleCfg okEnv sampleRid pendingRow sampleParams
     rfl (by decide) rfl rfl rfl⟩

end ExcelExport
